import Mathlib

/-!
Verification of the trajectory-and-pose generation engine of the standalone
camera JSON generator (`src/JsonMaker/standalone_camera_json.py`).

The Python source works on IEEE floats and Python lists.  The shallow
embedding below models float values as real numbers, Python lists as Lean
lists, Python `round(x, p)` as exact decimal rounding over the reals, and
Python `None`-able parameters as `Option`.  Functions keep the names of the
source functions they embed.  The `export_timestamp` field of the output
record is environment time and is therefore excluded from the pure model.

A second, tiny model (`PyFloat`, `assemblePoses`) embeds the pose-assembly
lines of the source over a float type that also carries the non-finite
values (infinities, NaN), because one claim is specifically about how
non-finite coordinates travel through the rounding and emission stage.
-/

namespace CameraJson

/-- A 3-component coordinate triple, as the `(x, y, z)` tuples of the source. -/
@[ext]
structure Vec3 where
  x : ℝ
  y : ℝ
  z : ℝ

/-- Embeds `focal_length_to_fov` (source lines 33-45; the source repeats the
same definition twice at lines 19-31 and 33-45, the second wins):
`fov_radians = 2 * atan(sensor_size / (2 * focal_length))`, converted to
degrees by `math.degrees`, i.e. multiplied by `180 / pi`. -/
noncomputable def focal_length_to_fov (focal_length : ℝ) (sensor_size : ℝ) : ℝ :=
  let fov_radians := 2 * Real.arctan (sensor_size / (2 * focal_length))
  let fov_degrees := fov_radians * 180 / Real.pi
  fov_degrees

/-- Embeds `calculate_circular_path` (source lines 52-74).  For each
`frame in range(frames)`: `angle = (2*pi*frame/frames) * dir_mult` with
`dir_mult = -1` if the direction string is `"clockwise"` else `1`, and the
position is `center + radius*(cos angle, sin angle, 0)`. -/
noncomputable def calculate_circular_path (center : Vec3) (radius : ℝ) (frames : ℕ)
    (direction : String) : List Vec3 :=
  let dir_mult : ℝ := if direction = "clockwise" then -1 else 1
  (List.range frames).map fun (frame : ℕ) =>
    let angle := (2 * Real.pi * (frame : ℝ) / (frames : ℝ)) * dir_mult
    { x := center.x + radius * Real.cos angle
      y := center.y + radius * Real.sin angle
      z := center.z }

/-- Embeds `calculate_spiral_path` (source lines 76-108).  Normalized time
`t = frame/(frames-1)` when `frames > 1`, else `0`; angle
`(2*pi*loops*t) * dir_mult`; radius and height linearly interpolated. -/
noncomputable def calculate_spiral_path (center : Vec3) (start_radius end_radius : ℝ)
    (start_height end_height : ℝ) (loops : ℝ) (frames : ℕ)
    (direction : String) : List Vec3 :=
  let dir_mult : ℝ := if direction = "clockwise" then -1 else 1
  (List.range frames).map fun (frame : ℕ) =>
    let t : ℝ := if frames > 1 then (frame : ℝ) / ((frames : ℝ) - 1) else 0
    let angle := (2 * Real.pi * loops * t) * dir_mult
    let radius := start_radius + (end_radius - start_radius) * t
    let height := start_height + (end_height - start_height) * t
    { x := center.x + radius * Real.cos angle
      y := center.y + radius * Real.sin angle
      z := center.z + height }

open scoped Classical in
/-- Embeds `calculate_target_from_distance` (source lines 110-137): unit
vector from the position toward the center, scaled by `distance` and added
to the position; if the direction vector has length `0` the function
returns the center ("Fallback if position equals center"). -/
noncomputable def calculate_target_from_distance (position : Vec3) (center : Vec3)
    (distance : ℝ) : Vec3 :=
  let dx := center.x - position.x
  let dy := center.y - position.y
  let dz := center.z - position.z
  let length := Real.sqrt (dx * dx + dy * dy + dz * dz)
  if length = 0 then
    center
  else
    { x := position.x + dx / length * distance
      y := position.y + dy / length * distance
      z := position.z + dz / length * distance }

/-- Embeds `convert_coordinates` (source lines 139-154): every position and
every target `(x, y, z)` becomes `(x, z, -y)`. -/
def convert_coordinates (positions targets : List Vec3) : List Vec3 × List Vec3 :=
  let converted_positions := positions.map fun pos => Vec3.mk pos.x pos.z (-pos.y)
  let converted_targets := targets.map fun target => Vec3.mk target.x target.z (-target.y)
  (converted_positions, converted_targets)

/-- The per-triple axis remap performed by `convert_coordinates` on each
element: `(x, y, z)` to `(x, z, -y)`. -/
def convertOne (v : Vec3) : Vec3 :=
  Vec3.mk v.x v.z (-v.y)

/-- Python `round(x, precision)` idealized over the reals: round
`x * 10^precision` to the nearest integer and divide back.  (Python rounds
the underlying binary float half-to-even; over exact reals away from ties
the two agree, and no claim depends on tie behaviour.) -/
noncomputable def roundP (precision : ℕ) (x : ℝ) : ℝ :=
  ((round (x * 10 ^ precision) : ℤ) : ℝ) / 10 ^ precision

/-- Embeds the inner helper `round_tuple` of `generate_camera_animation`
(source lines 206-207), applied to a coordinate triple. -/
noncomputable def roundVec (precision : ℕ) (v : Vec3) : Vec3 :=
  Vec3.mk (roundP precision v.x) (roundP precision v.y) (roundP precision v.z)

/-- Python `f"{n:04d}"` for a natural number: decimal digits left-padded
with zeros to at least width 4. -/
def pad4 (n : ℕ) : String :=
  let s := toString n
  if s.length ≥ 4 then s else String.mk (List.replicate (4 - s.length) '0') ++ s

/-- One emitted keyframe (the pose dictionary built at source lines 221-229). -/
structure Pose where
  frame : ℕ
  time : ℝ
  position : Vec3
  target : Vec3
  focal_length : ℝ
  fov : ℝ
  name : String

/-- The parameters of `generate_camera_animation` (source lines 156-174),
with the same defaults.  Python `None` becomes `Option.none`. -/
structure GenParams where
  animation_type : String := "circular"
  direction : String := "clockwise"
  center : Vec3 := ⟨0, 0, 0⟩
  target : Option Vec3 := none
  target_distance : Option ℝ := none
  radius : ℝ := 10
  start_radius : ℝ := 5
  end_radius : ℝ := 15
  start_height : ℝ := 0
  end_height : ℝ := 10
  spiral_loops : ℝ := 2
  frames : ℕ := 180
  fps : ℕ := 24
  focal_length : ℝ := 35
  sensor_size : ℝ := 32
  convert_coords : Bool := true
  precision : ℕ := 6
  keyframe_step : ℕ := 1

/-- The output record (the `json_data` dictionary, source lines 233-273).
Keys that the source adds only conditionally (`target`, `target_distance`,
`radius`, the five spiral parameters) are `Option` fields, `none` meaning
the key is absent.  `export_timestamp` (wall-clock time) is outside the
pure model and omitted. -/
structure AnimationRecord where
  camera_name : String
  frame_rate : ℕ
  frame_start : ℕ
  frame_end : ℕ
  frame_step : ℕ
  coordinate_system : String
  total_frames : ℕ
  keyframes_generated : ℕ
  keyframe_step : ℕ
  animation_type : String
  direction : String
  coordinate_precision : ℕ
  center : Vec3
  poses : List Pose
  target_distance : Option ℝ
  target : Option Vec3
  radius : Option ℝ
  spiral_loops : Option ℝ
  start_radius : Option ℝ
  end_radius : Option ℝ
  start_height : Option ℝ
  end_height : Option ℝ
  generator : String

instance : Inhabited AnimationRecord :=
  ⟨{ camera_name := "", frame_rate := 0, frame_start := 0, frame_end := 0,
     frame_step := 0, coordinate_system := "", total_frames := 0,
     keyframes_generated := 0, keyframe_step := 0, animation_type := "",
     direction := "", coordinate_precision := 0, center := ⟨0, 0, 0⟩,
     poses := [], target_distance := none, target := none, radius := none,
     spiral_loops := none, start_radius := none, end_radius := none,
     start_height := none, end_height := none, generator := "" }⟩

/-- The target-selection block of `generate_camera_animation` (source lines
187-199): `target_distance` wins when present, then a fixed `target`
replicated `frames` times, then the center replicated `frames` times. -/
noncomputable def rawTargets (p : GenParams) (positions : List Vec3) : List Vec3 :=
  match p.target_distance with
  | some d => positions.map fun pos => calculate_target_from_distance pos p.center d
  | none =>
    match p.target with
    | some t => List.replicate p.frames t
    | none => List.replicate p.frames p.center

/-- The conversion-then-rounding block of `generate_camera_animation`
(source lines 201-210): optionally convert coordinates, then round every
position and target to `precision` digits. -/
noncomputable def processPT (p : GenParams) (positions0 targets0 : List Vec3) :
    List Vec3 × List Vec3 :=
  let pt := if p.convert_coords then convert_coordinates positions0 targets0
            else (positions0, targets0)
  (pt.1.map (roundVec p.precision), pt.2.map (roundVec p.precision))

/-- The pose-construction loop of `generate_camera_animation` (source lines
216-230): `enumerate(zip(positions, targets))` filtered by
`i % keyframe_step == 0 or i == len(positions) - 1`, each kept index
becoming a pose with 1-based frame number. -/
noncomputable def buildPoses (p : GenParams) (positions targets : List Vec3)
    (fov : ℝ) : List Pose :=
  ((positions.zip targets).enum.filter fun pr =>
      pr.1 % p.keyframe_step == 0 || pr.1 == positions.length - 1).map fun pr =>
    { frame := pr.1 + 1
      time := ((pr.1 + 1 : ℕ) : ℝ) / (p.fps : ℝ)
      position := pr.2.1
      target := pr.2.2
      focal_length := p.focal_length
      fov := roundP 2 fov
      name := "camera_frame_" ++ pad4 (pr.1 + 1) }

/-- The record-assembly tail of `generate_camera_animation` (source lines
187-273) applied to the raw sampled positions: targets, conversion,
rounding, field of view, poses, and the metadata envelope. -/
noncomputable def buildRecord (p : GenParams) (positions0 : List Vec3) : AnimationRecord :=
  let targets0 := rawTargets p positions0
  let pt := processPT p positions0 targets0
  let fov := focal_length_to_fov p.focal_length p.sensor_size
  let poses := buildPoses p pt.1 pt.2 fov
  { camera_name := "Generated_Camera"
    frame_rate := p.fps
    frame_start := 1
    frame_end := p.frames
    frame_step := 1
    coordinate_system := if p.convert_coords then "SUPERSPLAT" else "BLENDER"
    total_frames := p.frames
    keyframes_generated := poses.length
    keyframe_step := p.keyframe_step
    animation_type := p.animation_type
    direction := p.direction
    coordinate_precision := p.precision
    center := p.center
    poses := poses
    target_distance := p.target_distance
    target := match p.target_distance with
              | some _ => none
              | none => p.target
    radius := if p.animation_type = "circular" then some p.radius else none
    spiral_loops := if p.animation_type = "spiral" then some p.spiral_loops else none
    start_radius := if p.animation_type = "spiral" then some p.start_radius else none
    end_radius := if p.animation_type = "spiral" then some p.end_radius else none
    start_height := if p.animation_type = "spiral" then some p.start_height else none
    end_height := if p.animation_type = "spiral" then some p.end_height else none
    generator := "Standalone Camera JSON Generator v1.0" }

/-- Embeds `generate_camera_animation` (source lines 156-273).  The head of
the function (lines 178-185) selects the path sampler from the
`animation_type` string and raises `ValueError` for any other tag; the
raise is modelled as `Except.error`. -/
noncomputable def generate_camera_animation (p : GenParams) : Except String AnimationRecord :=
  if p.animation_type = "circular" then
    Except.ok (buildRecord p
      (calculate_circular_path p.center p.radius p.frames p.direction))
  else if p.animation_type = "spiral" then
    Except.ok (buildRecord p
      (calculate_spiral_path p.center p.start_radius p.end_radius
        p.start_height p.end_height p.spiral_loops p.frames p.direction))
  else
    Except.error ("Unknown animation type: " ++ p.animation_type)

/-- Distance between two triples restricted to the first two coordinates
(the horizontal plane of a circular path). -/
noncomputable def planeDist (v c : Vec3) : ℝ :=
  Real.sqrt ((v.x - c.x) ^ 2 + (v.y - c.y) ^ 2)

/-- Full Euclidean distance between two coordinate triples. -/
noncomputable def dist3 (v w : Vec3) : ℝ :=
  Real.sqrt ((v.x - w.x) ^ 2 + (v.y - w.y) ^ 2 + (v.z - w.z) ^ 2)

/-- Euclidean magnitude of a coordinate triple. -/
noncomputable def mag (v : Vec3) : ℝ :=
  Real.sqrt (v.x ^ 2 + v.y ^ 2 + v.z ^ 2)

/-- Degree-11 Taylor partial sum of arctan (a lower bound on `[0, inf)`),
used to pin down the numeric value of the field of view. -/
noncomputable def arctanP11 (u : ℝ) : ℝ :=
  u - u ^ 3 / 3 + u ^ 5 / 5 - u ^ 7 / 7 + u ^ 9 / 9 - u ^ 11 / 11

/-- Degree-9 Taylor partial sum of arctan (an upper bound on `[0, inf)`). -/
noncomputable def arctanP9 (u : ℝ) : ℝ :=
  u - u ^ 3 / 3 + u ^ 5 / 5 - u ^ 7 / 7 + u ^ 9 / 9

/-!
A Python float value, modelling also the non-finite values.  Used to embed
the pose-assembly lines of `generate_camera_animation` (source lines
205-230) faithfully with respect to how Python `round` treats infinities
and NaN: `round(x, n)` returns non-finite floats unchanged and raises no
error. -/

/-- A Python float: a finite value (idealized as a rational) or one of the
three non-finite values. -/
inductive PyFloat where
  | num (q : ℚ)
  | inf
  | ninf
  | nan
deriving DecidableEq

/-- Whether a Python float is finite (`math.isfinite`). -/
def PyFloat.isFinite : PyFloat → Bool
  | .num _ => true
  | _ => false

/-- Python `round(x, precision)` on a float: finite values are rounded to
`precision` decimal digits; `inf`, `-inf` and `nan` come back unchanged
(CPython returns the input for non-finite floats instead of raising). -/
def pyRound (precision : ℕ) : PyFloat → PyFloat
  | .num q => .num (((round (q * 10 ^ precision) : ℤ) : ℚ) / 10 ^ precision)
  | v => v

/-- A coordinate triple of Python floats. -/
structure PVec3 where
  x : PyFloat
  y : PyFloat
  z : PyFloat
deriving DecidableEq

/-- The inner helper `round_tuple` of `generate_camera_animation` (source
lines 206-207) over Python floats: `round` applied to every component. -/
def round_tuple (t : PVec3) (precision : ℕ) : PVec3 :=
  ⟨pyRound precision t.x, pyRound precision t.y, pyRound precision t.z⟩

/-- A pose as assembled at source lines 221-229, restricted to the fields
that carry coordinates or the field of view (the `time`, `focal_length`
and `name` fields involve no coordinate and are omitted here; the full
record shape is modelled by `Pose` above). -/
structure PPose where
  frame : ℕ
  position : PVec3
  target : PVec3
  fov : PyFloat
deriving DecidableEq

/-- The pose-assembly stage of `generate_camera_animation` (source lines
205-230) over Python floats: round every position and target to
`precision` digits, then keep index `i` iff
`i % keyframe_step == 0 or i == len(positions) - 1`, building a pose with
1-based frame number and the field of view rounded to 2 digits.  The stage
has no error exit in the source: it is a total function. -/
def assemblePoses (precision : ℕ) (keyframe_step : ℕ) (fov : PyFloat)
    (positions targets : List PVec3) : List PPose :=
  let positions := positions.map fun pos => round_tuple pos precision
  let targets := targets.map fun tgt => round_tuple tgt precision
  ((positions.zip targets).enum.filter fun pr =>
      pr.1 % keyframe_step == 0 || pr.1 == positions.length - 1).map fun pr =>
    { frame := pr.1 + 1
      position := pr.2.1
      target := pr.2.2
      fov := pyRound 2 fov }

/-!  Concrete parameter sets and records used by witnesses below. -/

/-- A call with `frames = 0` and every other parameter at its default
(converting coordinates disabled to mirror the CLI default). -/
def pFrames0 : GenParams :=
  { animation_type := "circular", frames := 0, convert_coords := false }

/-- A call with `radius = 0` and every other parameter at its default. -/
def pRadius0 : GenParams :=
  { animation_type := "circular", radius := 0 }

/-- The record produced by the `frames = 0` call. -/
noncomputable def rFrames0 : AnimationRecord :=
  match generate_camera_animation pFrames0 with
  | .ok r => r
  | .error _ => default

/-- The record produced by the `radius = 0` call. -/
noncomputable def rRadius0 : AnimationRecord :=
  match generate_camera_animation pRadius0 with
  | .ok r => r
  | .error _ => default

/-- A call with 25 frames and keyframe stride 10. -/
def p25 : GenParams :=
  { animation_type := "circular", frames := 25, keyframe_step := 10,
    convert_coords := false }

/-- The record produced by the 25-frame, stride-10 call. -/
noncomputable def r25 : AnimationRecord :=
  match generate_camera_animation p25 with
  | .ok r => r
  | .error _ => default

/-- A call that supplies both a fixed target and a target distance. -/
def pBoth : GenParams :=
  { animation_type := "circular", frames := 0, target := some ⟨1, 2, 3⟩,
    target_distance := some 5, convert_coords := false }

/-- The record produced by the both-targets call. -/
noncomputable def rBoth : AnimationRecord :=
  match generate_camera_animation pBoth with
  | .ok r => r
  | .error _ => default

/-- The raw sampled positions of a call, before targets, conversion and
rounding (the value bound to `positions` at source lines 178-183; the
empty list stands in for the unreachable unknown-tag case). -/
noncomputable def rawPositionsOk (p : GenParams) : List Vec3 :=
  if p.animation_type = "circular" then
    calculate_circular_path p.center p.radius p.frames p.direction
  else if p.animation_type = "spiral" then
    calculate_spiral_path p.center p.start_radius p.end_radius
      p.start_height p.end_height p.spiral_loops p.frames p.direction
  else []

/-!  Helper lemmas. -/

theorem calculate_circular_path_length (center : Vec3) (radius : ℝ) (frames : ℕ)
    (direction : String) :
    (calculate_circular_path center radius frames direction).length = frames := by
  simp only [calculate_circular_path, List.length_map, List.length_range]

theorem calculate_spiral_path_length (center : Vec3) (sr er sh eh loops : ℝ)
    (frames : ℕ) (direction : String) :
    (calculate_spiral_path center sr er sh eh loops frames direction).length = frames := by
  simp only [calculate_spiral_path, List.length_map, List.length_range]

theorem calculate_circular_path_getD (center : Vec3) (radius : ℝ) (frames : ℕ)
    (direction : String) (i : ℕ) (hi : i < frames) :
    (calculate_circular_path center radius frames direction).getD i ⟨0, 0, 0⟩ =
      { x := center.x + radius * Real.cos ((2 * Real.pi * i / frames) *
            (if direction = "clockwise" then -1 else 1))
        y := center.y + radius * Real.sin ((2 * Real.pi * i / frames) *
            (if direction = "clockwise" then -1 else 1))
        z := center.z } := by
  simp only [calculate_circular_path, List.getD_eq_getElem?_getD, List.getElem?_map,
    List.getElem?_range hi, Option.map_some', Option.getD_some]

theorem calculate_spiral_path_getD (center : Vec3) (sr er sh eh loops : ℝ)
    (frames : ℕ) (direction : String) (i : ℕ) (hi : i < frames) :
    (calculate_spiral_path center sr er sh eh loops frames direction).getD i ⟨0, 0, 0⟩ =
      { x := center.x + (sr + (er - sr) *
            (if frames > 1 then (i : ℝ) / ((frames : ℝ) - 1) else 0)) *
            Real.cos ((2 * Real.pi * loops *
              (if frames > 1 then (i : ℝ) / ((frames : ℝ) - 1) else 0)) *
            (if direction = "clockwise" then -1 else 1))
        y := center.y + (sr + (er - sr) *
            (if frames > 1 then (i : ℝ) / ((frames : ℝ) - 1) else 0)) *
            Real.sin ((2 * Real.pi * loops *
              (if frames > 1 then (i : ℝ) / ((frames : ℝ) - 1) else 0)) *
            (if direction = "clockwise" then -1 else 1))
        z := center.z + (sh + (eh - sh) *
            (if frames > 1 then (i : ℝ) / ((frames : ℝ) - 1) else 0)) } := by
  simp only [calculate_spiral_path, List.getD_eq_getElem?_getD, List.getElem?_map,
    List.getElem?_range hi, Option.map_some', Option.getD_some]

theorem rawTargets_length (p : GenParams) (positions : List Vec3)
    (h : positions.length = p.frames) : (rawTargets p positions).length = p.frames := by
  unfold rawTargets
  cases p.target_distance with
  | some d => simpa using h
  | none => cases p.target with
    | some t => simp
    | none => simp

theorem convert_coordinates_eq (positions targets : List Vec3) :
    convert_coordinates positions targets =
      (positions.map convertOne, targets.map convertOne) := rfl

theorem processPT_fst (p : GenParams) (positions0 targets0 : List Vec3) :
    (processPT p positions0 targets0).1 =
      (if p.convert_coords then positions0.map convertOne else positions0).map
        (roundVec p.precision) := by
  unfold processPT
  cases hc : p.convert_coords <;> simp [convert_coordinates_eq]

theorem processPT_snd (p : GenParams) (positions0 targets0 : List Vec3) :
    (processPT p positions0 targets0).2 =
      (if p.convert_coords then targets0.map convertOne else targets0).map
        (roundVec p.precision) := by
  unfold processPT
  cases hc : p.convert_coords <;> simp [convert_coordinates_eq]

theorem processPT_fst_length (p : GenParams) (positions0 targets0 : List Vec3) :
    (processPT p positions0 targets0).1.length = positions0.length := by
  rw [processPT_fst]
  cases hc : p.convert_coords <;> simp

theorem processPT_snd_length (p : GenParams) (positions0 targets0 : List Vec3) :
    (processPT p positions0 targets0).2.length = targets0.length := by
  rw [processPT_snd]
  cases hc : p.convert_coords <;> simp

theorem generate_ok (p : GenParams) (r : AnimationRecord)
    (h : generate_camera_animation p = Except.ok r) :
    (p.animation_type = "circular" ∨ p.animation_type = "spiral") ∧
      r = buildRecord p (rawPositionsOk p) := by
  unfold generate_camera_animation at h
  unfold rawPositionsOk
  by_cases h1 : p.animation_type = "circular"
  · rw [if_pos h1] at h ⊢
    exact ⟨Or.inl h1, ((Except.ok.injEq _ _).mp h).symm⟩
  · by_cases h2 : p.animation_type = "spiral"
    · rw [if_neg h1, if_pos h2] at h ⊢
      exact ⟨Or.inr h2, ((Except.ok.injEq _ _).mp h).symm⟩
    · rw [if_neg h1, if_neg h2] at h
      exact absurd h (by simp)

theorem rawPositionsOk_length (p : GenParams)
    (h : p.animation_type = "circular" ∨ p.animation_type = "spiral") :
    (rawPositionsOk p).length = p.frames := by
  unfold rawPositionsOk
  rcases h with h | h
  · rw [if_pos h, calculate_circular_path_length]
  · by_cases h1 : p.animation_type = "circular"
    · rw [if_pos h1, calculate_circular_path_length]
    · rw [if_neg h1, if_pos h, calculate_spiral_path_length]

theorem filter_map_fst_zip {α β : Type} (q : ℕ → Bool) (f : ℕ → β) :
    ∀ (r : List ℕ) (l : List α), r.length ≤ l.length →
      ((r.zip l).filter fun pr => q pr.1).map (fun pr => f pr.1) =
        (r.filter q).map f := by
  intro r
  induction r with
  | nil => intro l _; simp
  | cons a r ih =>
    intro l hl
    cases l with
    | nil => simp at hl
    | cons b l =>
      cases hq : q a <;>
        simp [List.filter_cons, hq, ih l (by simpa using hl)]

theorem buildPoses_map_frame (p : GenParams) (positions targets : List Vec3) (fov : ℝ)
    (h : positions.length = targets.length) :
    (buildPoses p positions targets fov).map (fun q => q.frame) =
      ((List.range positions.length).filter fun i =>
        i % p.keyframe_step == 0 || i == positions.length - 1).map (fun i => i + 1) := by
  unfold buildPoses
  rw [List.map_map]
  have hz : (positions.zip targets).length = positions.length := by
    rw [List.length_zip, h, Nat.min_self]
  have he : (positions.zip targets).enum =
      (List.range (positions.zip targets).length).zip (positions.zip targets) :=
    List.enum_eq_zip_range _
  rw [he, hz]
  exact filter_map_fst_zip
    (fun i => i % p.keyframe_step == 0 || i == positions.length - 1)
    (fun i => i + 1) (List.range positions.length) (positions.zip targets)
    (by rw [hz, List.length_range])

theorem buildPoses_fov (p : GenParams) (positions targets : List Vec3) (fov : ℝ)
    (q : Pose) (hq : q ∈ buildPoses p positions targets fov) :
    q.fov = roundP 2 fov := by
  unfold buildPoses at hq
  rw [List.mem_map] at hq
  obtain ⟨pr, _, hpr⟩ := hq
  rw [← hpr]

theorem planeDist_circle (c : Vec3) (radius A : ℝ) (hr : 0 ≤ radius) :
    planeDist ⟨c.x + radius * Real.cos A, c.y + radius * Real.sin A, c.z⟩ c = radius := by
  unfold planeDist
  show Real.sqrt ((c.x + radius * Real.cos A - c.x) ^ 2 +
    (c.y + radius * Real.sin A - c.y) ^ 2) = radius
  have h1 : (c.x + radius * Real.cos A - c.x) ^ 2 +
      (c.y + radius * Real.sin A - c.y) ^ 2 = radius ^ 2 := by
    linear_combination radius ^ 2 * Real.sin_sq_add_cos_sq A
  rw [h1, Real.sqrt_sq hr]

/-- C3: for every frame count `N >= 1`, center, radius and direction, the
circular sampler produces exactly `N` positions; position `i` is
`center + radius * (cos A, sin A, 0)` with `A = 2*pi*i/N * d` and `d = -1`
for clockwise, `+1` otherwise; every position is at exactly `radius`
distance from the center in the path plane, and its third coordinate is
the center third coordinate. -/
theorem circular_path_correct (center : Vec3) (radius : ℝ) (frames : ℕ)
    (direction : String) (i : ℕ) (hN : 1 ≤ frames) (hr : 0 ≤ radius) (hi : i < frames) :
    (calculate_circular_path center radius frames direction).length = frames ∧
    (calculate_circular_path center radius frames direction).getD i ⟨0, 0, 0⟩ =
      { x := center.x + radius * Real.cos ((2 * Real.pi * i / frames) *
            (if direction = "clockwise" then -1 else 1))
        y := center.y + radius * Real.sin ((2 * Real.pi * i / frames) *
            (if direction = "clockwise" then -1 else 1))
        z := center.z } ∧
    planeDist ((calculate_circular_path center radius frames direction).getD i ⟨0, 0, 0⟩)
      center = radius ∧
    ((calculate_circular_path center radius frames direction).getD i ⟨0, 0, 0⟩).z =
      center.z := by
  have hg := calculate_circular_path_getD center radius frames direction i hi
  refine ⟨calculate_circular_path_length center radius frames direction, hg, ?_, ?_⟩
  · rw [hg]
    exact planeDist_circle center radius _ hr
  · rw [hg]

/-- Witness for C3 at center `(0,0,1)`, radius `2`, `4` frames, clockwise,
frame index `1`. -/
theorem circular_path_correct_witness :
    (1 ≤ 4) ∧ ((0 : ℝ) ≤ 2) ∧ (1 < 4) ∧
    planeDist ((calculate_circular_path ⟨0, 0, 1⟩ 2 4 "clockwise").getD 1 ⟨0, 0, 0⟩)
      ⟨0, 0, 1⟩ = 2 ∧
    ((calculate_circular_path ⟨0, 0, 1⟩ 2 4 "clockwise").getD 1 ⟨0, 0, 0⟩).z =
      (Vec3.mk 0 0 1).z :=
  ⟨by norm_num, by norm_num, by norm_num,
   (circular_path_correct ⟨0, 0, 1⟩ 2 4 "clockwise" 1 (by norm_num) (by norm_num)
     (by norm_num)).2.2.1,
   (circular_path_correct ⟨0, 0, 1⟩ 2 4 "clockwise" 1 (by norm_num) (by norm_num)
     (by norm_num)).2.2.2⟩

/-- C4: the spiral sampler uses normalized time `t = i/(N-1)` for `N > 1`
and `t = 0` for `N = 1`, angle `2*pi*loops*t*d`, and linear interpolation
of radius and height; frame `0` carries exactly the
`(start_radius, start_height)` offsets, for `N > 1` the last frame carries
exactly the `(end_radius, end_height)` offsets, and `N = 1` yields the
single sample at `t = 0`. -/
theorem spiral_path_correct (center : Vec3) (sr er sh eh loops : ℝ) (frames : ℕ)
    (direction : String) (i : ℕ) (hN : 1 ≤ frames) (hi : i < frames) :
    (calculate_spiral_path center sr er sh eh loops frames direction).length = frames ∧
    (calculate_spiral_path center sr er sh eh loops frames direction).getD i ⟨0, 0, 0⟩ =
      { x := center.x + (sr + (er - sr) *
            (if frames > 1 then (i : ℝ) / ((frames : ℝ) - 1) else 0)) *
            Real.cos ((2 * Real.pi * loops *
              (if frames > 1 then (i : ℝ) / ((frames : ℝ) - 1) else 0)) *
            (if direction = "clockwise" then -1 else 1))
        y := center.y + (sr + (er - sr) *
            (if frames > 1 then (i : ℝ) / ((frames : ℝ) - 1) else 0)) *
            Real.sin ((2 * Real.pi * loops *
              (if frames > 1 then (i : ℝ) / ((frames : ℝ) - 1) else 0)) *
            (if direction = "clockwise" then -1 else 1))
        z := center.z + (sh + (eh - sh) *
            (if frames > 1 then (i : ℝ) / ((frames : ℝ) - 1) else 0)) } ∧
    (calculate_spiral_path center sr er sh eh loops frames direction).getD 0 ⟨0, 0, 0⟩ =
      ⟨center.x + sr, center.y, center.z + sh⟩ ∧
    (1 < frames → i = frames - 1 →
      (calculate_spiral_path center sr er sh eh loops frames direction).getD i ⟨0, 0, 0⟩ =
        ⟨center.x + er * Real.cos ((2 * Real.pi * loops) *
            (if direction = "clockwise" then -1 else 1)),
         center.y + er * Real.sin ((2 * Real.pi * loops) *
            (if direction = "clockwise" then -1 else 1)),
         center.z + eh⟩) ∧
    (frames = 1 →
      calculate_spiral_path center sr er sh eh loops frames direction =
        [⟨center.x + sr, center.y, center.z + sh⟩]) := by
  refine ⟨calculate_spiral_path_length center sr er sh eh loops frames direction,
    calculate_spiral_path_getD center sr er sh eh loops frames direction i hi, ?_, ?_, ?_⟩
  · rw [calculate_spiral_path_getD center sr er sh eh loops frames direction 0 hN]
    by_cases hf : frames > 1 <;>
      simp [hf, Real.cos_zero, Real.sin_zero, Vec3.mk.injEq]
  · intro hf hlast
    subst hlast
    rw [calculate_spiral_path_getD center sr er sh eh loops frames direction
      (frames - 1) (by omega)]
    have hc : ((frames - 1 : ℕ) : ℝ) = (frames : ℝ) - 1 := by
      rw [Nat.cast_sub hN, Nat.cast_one]
    have h2 : (2 : ℝ) ≤ (frames : ℝ) := by exact_mod_cast hf
    have hne : (frames : ℝ) - 1 ≠ 0 := by linarith
    simp only [if_pos hf, hc, div_self hne, Vec3.mk.injEq]
    refine ⟨by ring_nf, by ring_nf, by ring⟩
  · intro h1
    subst h1
    simp [calculate_spiral_path, List.range_succ, List.range_zero, Real.cos_zero,
      Real.sin_zero, Vec3.mk.injEq]

/-- Witness for C4 at `2` frames, frame index `1` (the last frame). -/
theorem spiral_path_correct_witness :
    (1 ≤ 2) ∧ (1 < 2) ∧
    (calculate_spiral_path ⟨0, 0, 0⟩ 5 15 0 10 2 2 "clockwise").getD 0 ⟨0, 0, 0⟩ =
      ⟨(0 : ℝ) + 5, 0, (0 : ℝ) + 0⟩ ∧
    (calculate_spiral_path ⟨0, 0, 0⟩ 5 15 0 10 2 2 "clockwise").getD 1 ⟨0, 0, 0⟩ =
      ⟨(0 : ℝ) + 15 * Real.cos ((2 * Real.pi * 2) *
          (if "clockwise" = "clockwise" then -1 else 1)),
       (0 : ℝ) + 15 * Real.sin ((2 * Real.pi * 2) *
          (if "clockwise" = "clockwise" then -1 else 1)),
       (0 : ℝ) + 10⟩ :=
  ⟨by norm_num, by norm_num,
   (spiral_path_correct ⟨0, 0, 0⟩ 5 15 0 10 2 2 "clockwise" 1 (by norm_num)
     (by norm_num)).2.2.1,
   (spiral_path_correct ⟨0, 0, 0⟩ 5 15 0 10 2 2 "clockwise" 1 (by norm_num)
     (by norm_num)).2.2.2.1 (by norm_num) rfl⟩

/-- C5: for `P ≠ C` and `d > 0` the distance-based target resolver returns
`P + unit(C-P)*d`, a point at exactly distance `d` from `P` on the ray
from `P` toward `C`; for `P = C` it returns `C` itself (handled locally,
no error). -/
theorem target_from_distance_correct (position center : Vec3) (d : ℝ)
    (hne : position ≠ center) (hd : 0 < d) :
    calculate_target_from_distance position center d =
      { x := position.x + (center.x - position.x) /
            Real.sqrt ((center.x - position.x) * (center.x - position.x) +
              (center.y - position.y) * (center.y - position.y) +
              (center.z - position.z) * (center.z - position.z)) * d
        y := position.y + (center.y - position.y) /
            Real.sqrt ((center.x - position.x) * (center.x - position.x) +
              (center.y - position.y) * (center.y - position.y) +
              (center.z - position.z) * (center.z - position.z)) * d
        z := position.z + (center.z - position.z) /
            Real.sqrt ((center.x - position.x) * (center.x - position.x) +
              (center.y - position.y) * (center.y - position.y) +
              (center.z - position.z) * (center.z - position.z)) * d } ∧
    dist3 (calculate_target_from_distance position center d) position = d ∧
    (∃ s : ℝ, 0 ≤ s ∧ calculate_target_from_distance position center d =
      ⟨position.x + s * (center.x - position.x),
       position.y + s * (center.y - position.y),
       position.z + s * (center.z - position.z)⟩) ∧
    (∀ (q : Vec3) (e : ℝ), calculate_target_from_distance q q e = q) := by
  set S := (center.x - position.x) * (center.x - position.x) +
      (center.y - position.y) * (center.y - position.y) +
      (center.z - position.z) * (center.z - position.z) with hSdef
  have hS : 0 < S := by
    by_contra hcon
    push_neg at hcon
    have h1 : center.x - position.x = 0 := by
      nlinarith [mul_self_nonneg (center.x - position.x),
        mul_self_nonneg (center.y - position.y), mul_self_nonneg (center.z - position.z)]
    have h2 : center.y - position.y = 0 := by
      nlinarith [mul_self_nonneg (center.x - position.x),
        mul_self_nonneg (center.y - position.y), mul_self_nonneg (center.z - position.z)]
    have h3 : center.z - position.z = 0 := by
      nlinarith [mul_self_nonneg (center.x - position.x),
        mul_self_nonneg (center.y - position.y), mul_self_nonneg (center.z - position.z)]
    exact hne (Vec3.ext (by linarith) (by linarith) (by linarith))
  have hL : 0 < Real.sqrt S := Real.sqrt_pos.mpr hS
  have hL0 : Real.sqrt S ≠ 0 := ne_of_gt hL
  have hL2 : Real.sqrt S ^ 2 = S := Real.sq_sqrt hS.le
  have hformula : calculate_target_from_distance position center d =
      { x := position.x + (center.x - position.x) / Real.sqrt S * d
        y := position.y + (center.y - position.y) / Real.sqrt S * d
        z := position.z + (center.z - position.z) / Real.sqrt S * d } := by
    simp only [calculate_target_from_distance, ← hSdef]
    rw [if_neg hL0]
  have hdeg : ∀ (q : Vec3) (e : ℝ), calculate_target_from_distance q q e = q := by
    intro q e
    simp only [calculate_target_from_distance, sub_self]
    norm_num
  have hdist : dist3 (calculate_target_from_distance position center d) position = d := by
    rw [hformula]
    unfold dist3
    show Real.sqrt
      ((position.x + (center.x - position.x) / Real.sqrt S * d - position.x) ^ 2 +
        (position.y + (center.y - position.y) / Real.sqrt S * d - position.y) ^ 2 +
        (position.z + (center.z - position.z) / Real.sqrt S * d - position.z) ^ 2) = d
    have harg :
        (position.x + (center.x - position.x) / Real.sqrt S * d - position.x) ^ 2 +
          (position.y + (center.y - position.y) / Real.sqrt S * d - position.y) ^ 2 +
          (position.z + (center.z - position.z) / Real.sqrt S * d - position.z) ^ 2 =
          d ^ 2 := by
      have hstep :
          (position.x + (center.x - position.x) / Real.sqrt S * d - position.x) ^ 2 +
            (position.y + (center.y - position.y) / Real.sqrt S * d - position.y) ^ 2 +
            (position.z + (center.z - position.z) / Real.sqrt S * d - position.z) ^ 2 =
            S * d ^ 2 / Real.sqrt S ^ 2 := by
        rw [hSdef]
        field_simp
        ring
      rw [hstep, hL2, mul_comm, mul_div_assoc, div_self hS.ne', mul_one]
    rw [harg, Real.sqrt_sq hd.le]
  refine ⟨hformula, hdist, ⟨d / Real.sqrt S, div_nonneg hd.le (Real.sqrt_nonneg _), ?_⟩,
    hdeg⟩
  rw [hformula]
  exact Vec3.ext (by ring) (by ring) (by ring)

/-- Witness for C5 at `P = (3,0,0)`, `C = (0,0,0)`, `d = 1`. -/
theorem target_from_distance_correct_witness :
    (Vec3.mk 3 0 0 ≠ Vec3.mk 0 0 0) ∧ ((0 : ℝ) < 1) ∧
    dist3 (calculate_target_from_distance ⟨3, 0, 0⟩ ⟨0, 0, 0⟩ 1) ⟨3, 0, 0⟩ = 1 ∧
    calculate_target_from_distance ⟨2, 2, 2⟩ ⟨2, 2, 2⟩ 7 = ⟨2, 2, 2⟩ :=
  ⟨fun h => by simpa using congrArg Vec3.x h, by norm_num,
   (target_from_distance_correct ⟨3, 0, 0⟩ ⟨0, 0, 0⟩ 1
     (fun h => by simpa using congrArg Vec3.x h) (by norm_num)).2.1,
   (target_from_distance_correct ⟨3, 0, 0⟩ ⟨0, 0, 0⟩ 1
     (fun h => by simpa using congrArg Vec3.x h) (by norm_num)).2.2.2 ⟨2, 2, 2⟩ 7⟩

/-- C7: with conversion enabled, every position and every target is mapped
by the axis remap `(x, y, z)` to `(x, z, -y)`, identically and
independently for the two lists; the remap preserves magnitude; and the
processing stage applies rounding after the remap (each processed entry is
the rounding of the remapped raw entry), never before it. -/
theorem convert_coordinates_correct (positions targets : List Vec3) (v : Vec3)
    (p : GenParams) (positions0 targets0 : List Vec3) (hcv : p.convert_coords = true) :
    convert_coordinates positions targets =
      (positions.map convertOne, targets.map convertOne) ∧
    convertOne v = ⟨v.x, v.z, -v.y⟩ ∧
    mag (convertOne v) = mag v ∧
    processPT p positions0 targets0 =
      (positions0.map fun u => roundVec p.precision (convertOne u),
       targets0.map fun u => roundVec p.precision (convertOne u)) := by
  refine ⟨convert_coordinates_eq positions targets, rfl, ?_, ?_⟩
  · unfold mag convertOne
    show Real.sqrt (v.x ^ 2 + v.z ^ 2 + (-v.y) ^ 2) =
      Real.sqrt (v.x ^ 2 + v.y ^ 2 + v.z ^ 2)
    congr 1
    ring
  · have h1 := processPT_fst p positions0 targets0
    have h2 := processPT_snd p positions0 targets0
    simp only [hcv, if_true] at h1 h2
    rw [Prod.ext_iff]
    refine ⟨?_, ?_⟩
    · rw [h1, List.map_map]
      rfl
    · rw [h2, List.map_map]
      rfl

/-- Witness for C7 on the vector `(1,2,3)` and singleton lists. -/
theorem convert_coordinates_correct_witness :
    (({} : GenParams).convert_coords = true) ∧
    convertOne ⟨1, 2, 3⟩ = ⟨(1 : ℝ), 3, -2⟩ ∧
    mag (convertOne ⟨1, 2, 3⟩) = mag ⟨1, 2, 3⟩ ∧
    convert_coordinates [⟨1, 2, 3⟩] [⟨4, 5, 6⟩] =
      ([Vec3.mk 1 2 3].map convertOne, [Vec3.mk 4 5 6].map convertOne) :=
  ⟨rfl,
   (convert_coordinates_correct [⟨1, 2, 3⟩] [⟨4, 5, 6⟩] ⟨1, 2, 3⟩ {} [] [] rfl).2.1,
   (convert_coordinates_correct [⟨1, 2, 3⟩] [⟨4, 5, 6⟩] ⟨1, 2, 3⟩ {} [] [] rfl).2.2.1,
   (convert_coordinates_correct [⟨1, 2, 3⟩] [⟨4, 5, 6⟩] ⟨1, 2, 3⟩ {} [] [] rfl).1⟩

theorem buildRecord_poses (p : GenParams) (positions0 : List Vec3) :
    (buildRecord p positions0).poses =
      buildPoses p (processPT p positions0 (rawTargets p positions0)).1
        (processPT p positions0 (rawTargets p positions0)).2
        (focal_length_to_fov p.focal_length p.sensor_size) := rfl

/-- C6: a pose is emitted for frame index `i` iff
`i % keyframe_step == 0` or `i = N - 1`; stride `1` emits every frame; and
with stride `10` and `N = 25` exactly the indices `0, 10, 20, 24` are
emitted. -/
theorem keyframe_filtering_correct (p : GenParams) (r : AnimationRecord)
    (hr : generate_camera_animation p = Except.ok r) (hs : 1 ≤ p.keyframe_step) :
    r.poses.map (fun q => q.frame) =
      ((List.range p.frames).filter fun i =>
        i % p.keyframe_step == 0 || i == p.frames - 1).map (fun i => i + 1) ∧
    (p.keyframe_step = 1 → r.poses.length = p.frames) ∧
    (p.keyframe_step = 10 → p.frames = 25 →
      r.poses.map (fun q => q.frame - 1) = [0, 10, 20, 24]) := by
  obtain ⟨hty, hrec⟩ := generate_ok p r hr
  have hlen0 : (rawPositionsOk p).length = p.frames := rawPositionsOk_length p hty
  have hposes : r.poses = buildPoses p
      (processPT p (rawPositionsOk p) (rawTargets p (rawPositionsOk p))).1
      (processPT p (rawPositionsOk p) (rawTargets p (rawPositionsOk p))).2
      (focal_length_to_fov p.focal_length p.sensor_size) := by
    rw [hrec, buildRecord_poses]
  have h1 : (processPT p (rawPositionsOk p) (rawTargets p (rawPositionsOk p))).1.length =
      p.frames := by
    rw [processPT_fst_length, hlen0]
  have h2 : (processPT p (rawPositionsOk p) (rawTargets p (rawPositionsOk p))).2.length =
      p.frames := by
    rw [processPT_snd_length, rawTargets_length p _ hlen0]
  have hmap : r.poses.map (fun q => q.frame) =
      ((List.range p.frames).filter fun i =>
        i % p.keyframe_step == 0 || i == p.frames - 1).map (fun i => i + 1) := by
    rw [hposes, buildPoses_map_frame p _ _ _ (by rw [h1, h2]), h1]
  refine ⟨hmap, ?_, ?_⟩
  · intro hstep
    have hlen := congrArg List.length hmap
    simp only [List.length_map] at hlen
    rw [hlen]
    simp [hstep, Nat.mod_one]
  · intro h10 h25
    have hsplit : r.poses.map (fun q => q.frame - 1) =
        (r.poses.map (fun q => q.frame)).map (fun n => n - 1) :=
      (List.map_map (fun n => n - 1) (fun q : Pose => q.frame) r.poses).symm
    rw [hsplit, hmap, h10, h25]
    decide

/-- Witness for C6 on the 25-frame, stride-10 call. -/
theorem keyframe_filtering_correct_witness :
    generate_camera_animation p25 = Except.ok r25 ∧ (1 ≤ p25.keyframe_step) ∧
    r25.poses.map (fun q => q.frame - 1) = [0, 10, 20, 24] :=
  ⟨rfl, by decide,
   (keyframe_filtering_correct p25 r25 rfl (by decide)).2.2 rfl rfl⟩

/-- C10: on every successful generation, `keyframes_generated` equals the
number of entries of the poses array, `frame_start = 1`, `frame_end` and
`total_frames` equal the requested frame count, and `frame_step = 1`,
independently of the keyframe stride. -/
theorem metadata_invariants (p : GenParams) (r : AnimationRecord)
    (hr : generate_camera_animation p = Except.ok r) :
    r.keyframes_generated = r.poses.length ∧ r.frame_start = 1 ∧
    r.frame_end = p.frames ∧ r.total_frames = p.frames ∧ r.frame_step = 1 := by
  obtain ⟨_, hrec⟩ := generate_ok p r hr
  subst hrec
  exact ⟨rfl, rfl, rfl, rfl, rfl⟩

/-- Witness for C10 on the `frames = 0` call. -/
theorem metadata_invariants_witness :
    generate_camera_animation pFrames0 = Except.ok rFrames0 ∧
    (rFrames0.keyframes_generated = rFrames0.poses.length ∧
     rFrames0.frame_start = 1 ∧ rFrames0.frame_end = pFrames0.frames ∧
     rFrames0.total_frames = pFrames0.frames ∧ rFrames0.frame_step = 1) :=
  ⟨rfl, metadata_invariants pFrames0 rFrames0 rfl⟩

/-- C9: when both a fixed target and a target distance are supplied, the
distance wins: the per-frame targets are the distance-derived ones and the
record carries a `target_distance` field and no `target` field; the fixed
target is used (for all frames) only when the distance is absent, and with
both absent every target defaults to the center. -/
theorem target_precedence (p : GenParams) (r : AnimationRecord)
    (hr : generate_camera_animation p = Except.ok r) :
    (∀ d : ℝ, p.target_distance = some d →
      rawTargets p (rawPositionsOk p) =
        (rawPositionsOk p).map
          (fun pos => calculate_target_from_distance pos p.center d) ∧
      r.target_distance = some d ∧ r.target = none) ∧
    (∀ t : Vec3, p.target_distance = none → p.target = some t →
      rawTargets p (rawPositionsOk p) = List.replicate p.frames t ∧
      r.target = some t ∧ r.target_distance = none) ∧
    (p.target_distance = none → p.target = none →
      rawTargets p (rawPositionsOk p) = List.replicate p.frames p.center ∧
      r.target = none ∧ r.target_distance = none) := by
  obtain ⟨_, hrec⟩ := generate_ok p r hr
  subst hrec
  refine ⟨?_, ?_, ?_⟩
  · intro d hd
    refine ⟨?_, ?_, ?_⟩
    · unfold rawTargets
      rw [hd]
    · show p.target_distance = some d
      exact hd
    · show (match p.target_distance with
            | some _ => none
            | none => p.target) = none
      rw [hd]
  · intro t hd ht
    refine ⟨?_, ?_, ?_⟩
    · unfold rawTargets
      rw [hd, ht]
    · show (match p.target_distance with
            | some _ => none
            | none => p.target) = some t
      rw [hd]
      exact ht
    · show p.target_distance = none
      exact hd
  · intro hd ht
    refine ⟨?_, ?_, ?_⟩
    · unfold rawTargets
      rw [hd, ht]
    · show (match p.target_distance with
            | some _ => none
            | none => p.target) = none
      rw [hd]
      exact ht
    · show p.target_distance = none
      exact hd

/-- Witness for C9 on a call supplying both a fixed target and a target
distance. -/
theorem target_precedence_witness :
    generate_camera_animation pBoth = Except.ok rBoth ∧
    pBoth.target_distance = some 5 ∧ pBoth.target = some ⟨1, 2, 3⟩ ∧
    rawTargets pBoth (rawPositionsOk pBoth) =
      (rawPositionsOk pBoth).map
        (fun pos => calculate_target_from_distance pos pBoth.center 5) ∧
    rBoth.target_distance = some 5 ∧ rBoth.target = none :=
  ⟨rfl, rfl, rfl,
   ((target_precedence pBoth rBoth rfl).1 5 rfl).1,
   ((target_precedence pBoth rBoth rfl).1 5 rfl).2.1,
   ((target_precedence pBoth rBoth rfl).1 5 rfl).2.2⟩

theorem arctanP11_hasDerivAt (t : ℝ) :
    HasDerivAt arctanP11 (1 - t ^ 2 + t ^ 4 - t ^ 6 + t ^ 8 - t ^ 10) t := by
  have h := (((((hasDerivAt_id t).sub ((hasDerivAt_pow 3 t).div_const 3)).add
    ((hasDerivAt_pow 5 t).div_const 5)).sub ((hasDerivAt_pow 7 t).div_const 7)).add
    ((hasDerivAt_pow 9 t).div_const 9)).sub ((hasDerivAt_pow 11 t).div_const 11)
  have he : (1 : ℝ) - t ^ 2 + t ^ 4 - t ^ 6 + t ^ 8 - t ^ 10 =
      1 - (3 : ℕ) * t ^ (3 - 1) / 3 + (5 : ℕ) * t ^ (5 - 1) / 5 -
        (7 : ℕ) * t ^ (7 - 1) / 7 + (9 : ℕ) * t ^ (9 - 1) / 9 -
        (11 : ℕ) * t ^ (11 - 1) / 11 := by
    norm_num
  rw [he]
  exact h

theorem arctanP9_hasDerivAt (t : ℝ) :
    HasDerivAt arctanP9 (1 - t ^ 2 + t ^ 4 - t ^ 6 + t ^ 8) t := by
  have h := ((((hasDerivAt_id t).sub ((hasDerivAt_pow 3 t).div_const 3)).add
    ((hasDerivAt_pow 5 t).div_const 5)).sub ((hasDerivAt_pow 7 t).div_const 7)).add
    ((hasDerivAt_pow 9 t).div_const 9)
  have he : (1 : ℝ) - t ^ 2 + t ^ 4 - t ^ 6 + t ^ 8 =
      1 - (3 : ℕ) * t ^ (3 - 1) / 3 + (5 : ℕ) * t ^ (5 - 1) / 5 -
        (7 : ℕ) * t ^ (7 - 1) / 7 + (9 : ℕ) * t ^ (9 - 1) / 9 := by
    norm_num
  rw [he]
  exact h

theorem arctanP11_le_arctan (x : ℝ) (hx : 0 ≤ x) : arctanP11 x ≤ Real.arctan x := by
  have hderiv : ∀ t : ℝ, HasDerivAt (fun u : ℝ => Real.arctan u - arctanP11 u)
      (t ^ 12 / (1 + t ^ 2)) t := by
    intro t
    have h0 : (1 : ℝ) + t ^ 2 ≠ 0 := by positivity
    have h := (Real.hasDerivAt_arctan t).sub (arctanP11_hasDerivAt t)
    have he : 1 / (1 + t ^ 2) - (1 - t ^ 2 + t ^ 4 - t ^ 6 + t ^ 8 - t ^ 10) =
        t ^ 12 / (1 + t ^ 2) := by
      field_simp
      ring
    rw [← he]
    exact h
  have hmono : Monotone (fun u : ℝ => Real.arctan u - arctanP11 u) :=
    monotone_of_deriv_nonneg (fun t => (hderiv t).differentiableAt)
      (fun t => by rw [(hderiv t).deriv]; positivity)
  have h0 : Real.arctan 0 - arctanP11 0 = 0 := by
    simp [Real.arctan_zero, arctanP11]
  have hle := hmono hx
  simp only at hle
  rw [h0] at hle
  linarith

theorem arctan_le_arctanP9 (x : ℝ) (hx : 0 ≤ x) : Real.arctan x ≤ arctanP9 x := by
  have hderiv : ∀ t : ℝ, HasDerivAt (fun u : ℝ => Real.arctan u - arctanP9 u)
      (-(t ^ 10) / (1 + t ^ 2)) t := by
    intro t
    have h0 : (1 : ℝ) + t ^ 2 ≠ 0 := by positivity
    have h := (Real.hasDerivAt_arctan t).sub (arctanP9_hasDerivAt t)
    have he : 1 / (1 + t ^ 2) - (1 - t ^ 2 + t ^ 4 - t ^ 6 + t ^ 8) =
        -(t ^ 10) / (1 + t ^ 2) := by
      field_simp
      ring
    rw [← he]
    exact h
  have hanti : Antitone (fun u : ℝ => Real.arctan u - arctanP9 u) :=
    antitone_of_deriv_nonpos (fun t => (hderiv t).differentiableAt)
      (fun t => by
        rw [(hderiv t).deriv]
        apply div_nonpos_of_nonpos_of_nonneg
        · simp [pow_nonneg]
          positivity
        · positivity)
  have h0 : Real.arctan 0 - arctanP9 0 = 0 := by
    simp [Real.arctan_zero, arctanP9]
  have hle := hanti hx
  simp only at hle
  rw [h0] at hle
  linarith

/-- C8: the field of view is `2 * atan(sensor_size / (2 * focal_length))`
converted from radians to degrees; every emitted pose reports it rounded
to 2 decimal digits; and `FOV(35, 32)` is within `0.01` of `49.13`
degrees. -/
theorem fov_correct (fl ss : ℝ) (p : GenParams) (r : AnimationRecord)
    (hfl : 0 < fl) (hss : 0 < ss)
    (hr : generate_camera_animation p = Except.ok r) :
    focal_length_to_fov fl ss = 2 * Real.arctan (ss / (2 * fl)) * 180 / Real.pi ∧
    r.poses.map (fun q => q.fov) = List.replicate r.poses.length
      (roundP 2 (focal_length_to_fov p.focal_length p.sensor_size)) ∧
    |focal_length_to_fov 35 32 - 49.13| ≤ 0.01 := by
  obtain ⟨_, hrec⟩ := generate_ok p r hr
  refine ⟨rfl, ?_, ?_⟩
  · subst hrec
    rw [buildRecord_poses]
    unfold buildPoses
    rw [List.map_map, List.length_map]
    exact List.map_const _ _
  · have harg : (32 : ℝ) / (2 * 35) = 16 / 35 := by norm_num
    have hE : focal_length_to_fov 35 32 =
        2 * Real.arctan (16 / 35) * 180 / Real.pi := by
      show 2 * Real.arctan ((32 : ℝ) / (2 * 35)) * 180 / Real.pi = _
      rw [harg]
    have hlb := arctanP11_le_arctan (16 / 35) (by norm_num)
    have hub := arctan_le_arctanP9 (16 / 35) (by norm_num)
    have hL : (0.42877 : ℝ) ≤ Real.arctan (16 / 35) := by
      refine le_trans ?_ hlb
      unfold arctanP11
      norm_num
    have hU : Real.arctan (16 / 35) ≤ 0.42880 := by
      refine le_trans hub ?_
      unfold arctanP9
      norm_num
    have hpi1 : (3.141592 : ℝ) < Real.pi := Real.pi_gt_d6
    have hpi2 : Real.pi < 3.141593 := Real.pi_lt_d6
    have hlower : (49.12 : ℝ) ≤ focal_length_to_fov 35 32 := by
      rw [hE, le_div_iff₀ Real.pi_pos]
      nlinarith
    have hupper : focal_length_to_fov 35 32 ≤ 49.14 := by
      rw [hE, div_le_iff₀ Real.pi_pos]
      nlinarith
    rw [abs_le]
    constructor <;> [linarith; linarith]

/-- Witness for C8 at focal length 35, sensor size 32, on the 25-frame
call. -/
theorem fov_correct_witness :
    ((0 : ℝ) < 35) ∧ ((0 : ℝ) < 32) ∧
    generate_camera_animation p25 = Except.ok r25 ∧
    r25.poses.map (fun q => q.fov) = List.replicate r25.poses.length
      (roundP 2 (focal_length_to_fov p25.focal_length p25.sensor_size)) ∧
    |focal_length_to_fov 35 32 - 49.13| ≤ 0.01 :=
  ⟨by norm_num, by norm_num, rfl,
   (fov_correct 35 32 p25 r25 (by norm_num) (by norm_num) rfl).2.1,
   (fov_correct 35 32 p25 r25 (by norm_num) (by norm_num) rfl).2.2⟩

/-- C1 counterexample: a call with `frames = 0` does not abort; it returns
a complete output record (with an empty poses array), so the claim that
`frames = 0` is detected and generation produces no output record fails. -/
theorem config_error_counterexample :
    pFrames0.frames = 0 ∧
    generate_camera_animation pFrames0 = Except.ok rFrames0 :=
  ⟨rfl, rfl⟩

/-- C1 (amended): only an unrecognized animation-type tag is detected
before sampling, reported to the caller, and aborts generation with no
output record; `frames = 0` and `radius = 0` are not rejected: those calls
return a complete record. -/
theorem config_error_amended (p : GenParams)
    (h1 : p.animation_type ≠ "circular") (h2 : p.animation_type ≠ "spiral") :
    generate_camera_animation p =
      Except.error ("Unknown animation type: " ++ p.animation_type) ∧
    generate_camera_animation pFrames0 = Except.ok rFrames0 ∧
    generate_camera_animation pRadius0 = Except.ok rRadius0 := by
  refine ⟨?_, rfl, rfl⟩
  unfold generate_camera_animation
  rw [if_neg h1, if_neg h2]

/-- Witness for C1 (amended) at the tag `"bogus"`. -/
theorem config_error_amended_witness :
    (({ animation_type := "bogus" } : GenParams).animation_type ≠ "circular") ∧
    (({ animation_type := "bogus" } : GenParams).animation_type ≠ "spiral") ∧
    generate_camera_animation { animation_type := "bogus" } =
      Except.error ("Unknown animation type: " ++ "bogus") :=
  ⟨by decide, by decide,
   (config_error_amended { animation_type := "bogus" } (by decide) (by decide)).1⟩

/-- C2 counterexample: an infinite coordinate reaching the pose-assembly
stage is not reported as an error; it is passed through rounding unchanged
and emitted in the output pose, so the claim that a non-finite coordinate
signals a computation error and is never emitted fails. -/
theorem nonfinite_check_counterexample :
    PyFloat.isFinite PyFloat.inf = false ∧
    (assemblePoses 6 1 (PyFloat.num 49)
        [⟨PyFloat.inf, PyFloat.num 0, PyFloat.num 0⟩]
        [⟨PyFloat.num 0, PyFloat.num 0, PyFloat.num 0⟩]).map (fun q => q.position.x) =
      [PyFloat.inf] := by
  exact ⟨rfl, by decide⟩

/-- C2 (amended): the generation call performs no finiteness check:
Python `round` returns every non-finite coordinate unchanged, and the
pose-assembly stage emits such coordinates in the output poses without
signaling any error. -/
theorem nonfinite_passthrough (precision : ℕ) (v : PyFloat)
    (hv : v.isFinite = false) :
    pyRound precision v = v ∧
    (assemblePoses 6 1 (PyFloat.num 49)
        [⟨PyFloat.nan, PyFloat.num 0, PyFloat.num 0⟩]
        [⟨PyFloat.num 0, PyFloat.num 0, PyFloat.num 0⟩]).map (fun q => q.position.x) =
      [PyFloat.nan] := by
  constructor
  · cases v with
    | num q => simp [PyFloat.isFinite] at hv
    | inf => rfl
    | ninf => rfl
    | nan => rfl
  · decide

/-- Witness for C2 (amended) at negative infinity. -/
theorem nonfinite_passthrough_witness :
    PyFloat.isFinite PyFloat.ninf = false ∧
    pyRound 6 PyFloat.ninf = PyFloat.ninf ∧
    (assemblePoses 6 1 (PyFloat.num 49)
        [⟨PyFloat.nan, PyFloat.num 0, PyFloat.num 0⟩]
        [⟨PyFloat.num 0, PyFloat.num 0, PyFloat.num 0⟩]).map (fun q => q.position.x) =
      [PyFloat.nan] :=
  ⟨rfl, (nonfinite_passthrough 6 PyFloat.ninf rfl).1,
   (nonfinite_passthrough 6 PyFloat.ninf rfl).2⟩

end CameraJson
